import Mathlib

/-!
Shallow embedding of the mmap2 buffer arena and stream of cazou/libv4l-rs
(src/io/mmap2/arena.rs, src/io/mmap2/stream.rs, src/io/arena.rs).

The kernel driver and the mmap/munmap primitives are modelled as an oracle
(`Driver`) of response functions; the embedded operations consume oracle
responses exactly where the Rust code issues the corresponding system call,
and additionally emit a trace of the system calls they issued, so that
ordering and counting properties can be stated.
-/

namespace V4l

/-- Embeds std::io::Error as far as the code inspects it: raw_os_error(). -/
structure IoError where
  rawOsError : Option Int
deriving DecidableEq, Repr

/-- Embeds crate::buffer::Metadata (spec section 3): bytesused, flags, field,
timestamp (sec, usec), sequence. -/
structure Metadata where
  bytesused : Nat
  flags : Nat
  field : Nat
  tsSec : Int
  tsUsec : Int
  sequence : Nat
deriving DecidableEq, Repr

/-- The default (all-zero) Metadata value, as used by
`buf_meta.resize(count, Metadata::default())`. -/
def Metadata.zero : Metadata := ⟨0, 0, 0, 0, 0, 0⟩

/-- A region mapped by v4l2::mmap: the Arc of ManuallyDrop of Vec of u8 held in
`Arena.bufs`, identified by its address and byte length. -/
structure MappedRegion where
  addr : Nat
  length : Nat
deriving DecidableEq, Repr

/-- Driver response to VIDIOC_QUERYBUF: buffer length and kernel offset. -/
structure QueryBufResponse where
  length : Nat
  offset : Nat
deriving DecidableEq, Repr

/-- Driver response to VIDIOC_DQBUF: the completed buffer index and the fields
copied into Metadata by `StreamInt::dequeue`. -/
structure DqbufResponse where
  index : Nat
  bytesused : Nat
  flags : Nat
  field : Nat
  tsSec : Int
  tsUsec : Int
  sequence : Nat
deriving DecidableEq, Repr

/-- Oracle for the external collaborators (spec section 6): the ioctl control
channel and the map/unmap primitive. Each field answers one kind of call. -/
structure Driver where
  reqbufs : Nat → Nat → Except IoError Nat
  querybuf : Nat → Nat → Except IoError QueryBufResponse
  mmap : Nat → Nat → Except IoError Nat
  munmap : Nat → Nat → Except IoError Unit
  streamon : Nat → Except IoError Unit
  streamoff : Nat → Except IoError Unit
  qbuf : Nat → Nat → Except IoError Unit
  dqbuf : Nat → Except IoError DqbufResponse

/-- One issued system call, for traces. -/
inductive Syscall where
  | reqbufs (bufType count : Nat)
  | querybuf (bufType index : Nat)
  | mmap (length offset : Nat)
  | munmap (addr length : Nat)
  | streamon (bufType : Nat)
  | streamoff (bufType : Nat)
  | qbuf (bufType index : Nat)
  | dqbuf (bufType : Nat)
deriving DecidableEq, Repr

/-- Embeds the `Arena` struct of mmap2/arena.rs: `bufs`, `buf_sizes`
(initialized empty and never written by the source), `buf_type`. -/
structure ArenaState where
  bufs : List MappedRegion
  bufSizes : List Nat
  bufType : Nat
deriving DecidableEq, Repr

/-- Embeds `Arena::new`: empty buffer list. -/
def Arena.new (bufType : Nat) : ArenaState := ⟨[], [], bufType⟩

/-- Embeds `Arena::len`: `self.bufs.len()`. -/
def Arena.len (st : ArenaState) : Nat := st.bufs.length

/-- Result of an operation that may panic (Rust `unwrap` / `panic!`). -/
inductive PanicOr (α : Type) where
  | panicked
  | ok (a : α)
deriving DecidableEq, Repr

/-- Embeds `Arena::get`: `Some(Arc::clone(self.bufs.get(index).unwrap()))`.
The `unwrap()` panics when `bufs.get(index)` is `None`. -/
def Arena.get (st : ArenaState) (index : Nat) : PanicOr (Option MappedRegion) :=
  match st.bufs[index]? with
  | none => PanicOr.panicked
  | some b => PanicOr.ok (some b)

/-- Embeds the per-index body of the loop in `Arena::allocate`:
VIDIOC_QUERYBUF for the index, then mmap of the reported length at the
reported offset, yielding the mapped region; either failure propagates. -/
def allocStep (d : Driver) (bufType i : Nat) : Except IoError MappedRegion :=
  match d.querybuf bufType i with
  | Except.error e => Except.error e
  | Except.ok qb =>
    match d.mmap qb.length qb.offset with
    | Except.error e => Except.error e
    | Except.ok addr => Except.ok ⟨addr, qb.length⟩

/-- Embeds the loop of `Arena::allocate`: for each index query + mmap + push;
the first failing call aborts the loop, leaving the regions pushed so far. -/
def allocLoop (d : Driver) (bufType : Nat) (bufs : List MappedRegion) :
    List Nat → Except IoError Unit × List MappedRegion
  | [] => (Except.ok (), bufs)
  | i :: rest =>
    match allocStep d bufType i with
    | Except.error e => (Except.error e, bufs)
    | Except.ok b => allocLoop d bufType (bufs ++ [b]) rest

/-- The part of `Arena::allocate` after a successful VIDIOC_REQBUFS that
granted `granted` buffers: run the query + mmap + push loop over indices
0..granted; on success return the granted count. -/
def allocFinish (d : Driver) (st : ArenaState) (granted : Nat) :
    Except IoError Nat × ArenaState :=
  match (allocLoop d st.bufType st.bufs (List.range granted)).1 with
  | Except.error e =>
    (Except.error e,
     { st with bufs := (allocLoop d st.bufType st.bufs (List.range granted)).2 })
  | Except.ok _ =>
    (Except.ok granted,
     { st with bufs := (allocLoop d st.bufType st.bufs (List.range granted)).2 })

/-- Embeds `Arena::allocate`: VIDIOC_REQBUFS with the desired count, then for
each granted index query + mmap + push; returns the granted count. On failure
the error propagates (`?`) and partially pushed buffers remain. -/
def Arena.allocate (d : Driver) (st : ArenaState) (count : Nat) :
    Except IoError Nat × ArenaState :=
  match d.reqbufs st.bufType count with
  | Except.error e => (Except.error e, st)
  | Except.ok granted => allocFinish d st granted

/-- Embeds the unmap loop of `Arena::release`: munmap each buffer in order,
stopping at the first failure (`?`). Returns the outcome and the trace of
munmap calls issued. -/
def munmapAll (d : Driver) : List MappedRegion → Except IoError Unit × List Syscall
  | [] => (Except.ok (), [])
  | b :: rest =>
    match d.munmap b.addr b.length with
    | Except.error e => (Except.error e, [Syscall.munmap b.addr b.length])
    | Except.ok _ =>
      ((munmapAll d rest).1, Syscall.munmap b.addr b.length :: (munmapAll d rest).2)

/-- Embeds `Arena::release`: munmap every buffer (index 0 upward), then
VIDIOC_REQBUFS with count 0; only on full success is `bufs` cleared. Returns
the outcome, the resulting arena state, and the trace of issued calls. -/
def Arena.release (d : Driver) (st : ArenaState) :
    Except IoError Unit × ArenaState × List Syscall :=
  match munmapAll d st.bufs with
  | (Except.error e, tr) => (Except.error e, st, tr)
  | (Except.ok _, tr) =>
    match d.reqbufs st.bufType 0 with
    | Except.error e => (Except.error e, st, tr ++ [Syscall.reqbufs st.bufType 0])
    | Except.ok _ => (Except.ok (), { st with bufs := [] }, tr ++ [Syscall.reqbufs st.bufType 0])

/-- Outcome of a Drop impl: normal return or panic. -/
inductive TeardownOutcome where
  | ok
  | panicked (e : IoError)
deriving DecidableEq, Repr

/-- Embeds `impl Drop for Arena`: nothing when `bufs` is empty; otherwise call
`release`, swallow an error whose raw_os_error is 19 (ENODEV), panic on any
other error. -/
def Arena.dropArena (d : Driver) (st : ArenaState) : TeardownOutcome × List Syscall :=
  if st.bufs.isEmpty then (TeardownOutcome.ok, [])
  else
    match Arena.release d st with
    | (Except.error e, _, tr) =>
      if e.rawOsError = some 19 then (TeardownOutcome.ok, tr)
      else (TeardownOutcome.panicked e, tr)
    | (Except.ok _, _, tr) => (TeardownOutcome.ok, tr)

/-- Embeds the `StreamInt` struct of mmap2/stream.rs: arena, arena_index,
buf_type, buf_meta, active. All its methods take `&self`, so none of them can
modify this state; the embedding therefore passes it unchanged. -/
structure StreamState where
  arena : ArenaState
  arenaIndex : Nat
  bufType : Nat
  bufMeta : List Metadata
  active : Bool
deriving DecidableEq, Repr

/-- Embeds `StreamInt::with_buffers`: allocate on a fresh arena, then build
`buf_meta` with `count` default entries, `arena_index = 0`, `active = false`. -/
def StreamInt.withBuffers (d : Driver) (bufType : Nat) (bufCount : Nat) :
    Except IoError StreamState :=
  match Arena.allocate d (Arena.new bufType) bufCount with
  | (Except.error e, _) => Except.error e
  | (Except.ok count, arena) =>
    Except.ok { arena := arena, arenaIndex := 0, bufType := bufType,
                bufMeta := List.replicate count Metadata.zero, active := false }

/-- Embeds the queue loop of `StreamInt::start`: VIDIOC_QBUF for each index in
the given list, stopping at the first failure (`?`). -/
def queueAll (d : Driver) (bufType : Nat) : List Nat → Except IoError Unit × List Syscall
  | [] => (Except.ok (), [])
  | i :: rest =>
    match d.qbuf bufType i with
    | Except.error e => (Except.error e, [Syscall.qbuf bufType i])
    | Except.ok _ =>
      ((queueAll d bufType rest).1, Syscall.qbuf bufType i :: (queueAll d bufType rest).2)

/-- Embeds `StreamInt::start`: VIDIOC_STREAMON, then queue every index in
`0..arena.len()` in ascending order. The `self.active = true` line is
commented out in the source, so the state is unchanged. -/
def StreamInt.start (d : Driver) (st : StreamState) : Except IoError Unit × List Syscall :=
  match d.streamon st.bufType with
  | Except.error e => (Except.error e, [Syscall.streamon st.bufType])
  | Except.ok _ =>
    ((queueAll d st.bufType (List.range (Arena.len st.arena))).1,
     Syscall.streamon st.bufType ::
       (queueAll d st.bufType (List.range (Arena.len st.arena))).2)

/-- Embeds `StreamInt::stop`: one VIDIOC_STREAMOFF ioctl, whose result is
propagated; the `self.active = false` line is commented out in the source. -/
def StreamInt.stop (d : Driver) (st : StreamState) : Except IoError Unit × List Syscall :=
  (d.streamoff st.bufType, [Syscall.streamoff st.bufType])

/-- Embeds `StreamInt::queue`: one VIDIOC_QBUF ioctl for the given index. -/
def StreamInt.queue (d : Driver) (st : StreamState) (index : Nat) :
    Except IoError Unit × List Syscall :=
  (d.qbuf st.bufType index, [Syscall.qbuf st.bufType index])

/-- Embeds `StreamInt::dequeue`: one VIDIOC_DQBUF ioctl; on success returns the
driver-reported index as-is together with the Metadata built from the
response. It takes `&self`: the stream state (in particular `buf_meta`) is
not modified. -/
def StreamInt.dequeue (d : Driver) (st : StreamState) : Except IoError (Nat × Metadata) :=
  match d.dqbuf st.bufType with
  | Except.error e => Except.error e
  | Except.ok resp =>
    Except.ok (resp.index,
      ⟨resp.bytesused, resp.flags, resp.field, resp.tsSec, resp.tsUsec, resp.sequence⟩)

/-- Embeds `StreamInt::get_meta`: `self.buf_meta.get(index)`. -/
def StreamInt.getMeta (st : StreamState) (index : Nat) : Option Metadata :=
  st.bufMeta[index]?

/-- Embeds `impl Drop for StreamInt` together with the field drop that follows
it (Rust drops the `arena` field after the Drop body runs, also on unwind):
call `stop`; a code-19 error is swallowed, any other error panics; then the
arena's own Drop runs. -/
def StreamInt.dropStream (d : Driver) (st : StreamState) : TeardownOutcome × List Syscall :=
  let s := StreamInt.stop d st
  let a := Arena.dropArena d st.arena
  let out :=
    match s.1 with
    | Except.ok _ => a.1
    | Except.error e => if e.rawOsError = some 19 then a.1 else TeardownOutcome.panicked e
  (out, s.2 ++ a.2)

/-- Embeds the public `Stream::start`: delegates to `StreamInt::start`. -/
def Stream.start (d : Driver) (st : StreamState) : Except IoError Unit × List Syscall :=
  StreamInt.start d st

/-- Embeds the public `Stream::stop`: its body is `self.stream_int.start()`,
so it delegates to `StreamInt::start`, not to `StreamInt::stop`. -/
def Stream.stop (d : Driver) (st : StreamState) : Except IoError Unit × List Syscall :=
  StreamInt.start d st

/-! Concrete oracles and states used by witnesses and counterexamples. -/

/-- An oracle on which every call succeeds: reqbufs grants the desired count,
each buffer has length 4096 at offset 4096*i, mmap places it at 1000+offset,
dqbuf completes buffer 0 with sequence 1. -/
def okDriver : Driver :=
  { reqbufs := fun _ count => Except.ok count
    querybuf := fun _ i => Except.ok ⟨4096, 4096 * i⟩
    mmap := fun _ offset => Except.ok (1000 + offset)
    munmap := fun _ _ => Except.ok ()
    streamon := fun _ => Except.ok ()
    streamoff := fun _ => Except.ok ()
    qbuf := fun _ _ => Except.ok ()
    dqbuf := fun _ => Except.ok ⟨0, 100, 0, 0, 0, 0, 1⟩ }

/-- The ENODEV error: raw_os_error 19. -/
def e19 : IoError := ⟨some 19⟩

/-- An EIO-style error: raw_os_error 5. -/
def eio : IoError := ⟨some 5⟩

/-- A one-buffer arena state (as produced by a successful allocate of one
buffer under okDriver). -/
def arena1 : ArenaState := ⟨[⟨1000, 4096⟩], [], 1⟩

/-- A one-buffer stream state (as produced by withBuffers okDriver 1 1). -/
def stream1 : StreamState :=
  ⟨arena1, 0, 1, [Metadata.zero], false⟩

/-- A two-buffer stream state marked active. -/
def stream2 : StreamState :=
  ⟨⟨[⟨1000, 4096⟩, ⟨5096, 4096⟩], [], 1⟩, 0, 1, [Metadata.zero, Metadata.zero], true⟩

/-- A driver on which everything succeeds but dqbuf reports index 5. -/
def badIndexDriver : Driver :=
  { okDriver with dqbuf := fun _ => Except.ok ⟨5, 100, 0, 0, 0, 0, 1⟩ }

/-- A driver on which everything succeeds but dqbuf completes buffer 0 with
sequence number 7. -/
def seq7Driver : Driver :=
  { okDriver with dqbuf := fun _ => Except.ok ⟨0, 100, 0, 0, 0, 0, 7⟩ }

/-- The metadata seq7Driver's completion carries. -/
def metaSeq7 : Metadata := ⟨100, 0, 0, 0, 0, 7⟩

/-! Theorems settling the claims. -/

/-- C1: the claim says the public stop operation issues only the stream-off
command. In the source `Stream::stop` calls `self.stream_int.start()`, so on
an active two-buffer stream on which every driver call succeeds it issues
stream-on followed by queueing buffers 0 and 1, and never issues stream-off. -/
theorem stream_stop_issues_streamon_and_queues :
    (Stream.stop okDriver stream2).2 =
      [Syscall.streamon 1, Syscall.qbuf 1 0, Syscall.qbuf 1 1] ∧
    Syscall.streamoff 1 ∉ (Stream.stop okDriver stream2).2 := by
  constructor
  · rfl
  · decide

/-- C2: the claim says `get(index)` returns none for `index >= len()` and
never crashes. The source unwraps `bufs.get(index)`, so on an empty arena
`get(0)` panics; for an in-range index it does return a share of the mapped
region. -/
theorem arena_get_out_of_range_panics :
    Arena.len (Arena.new 1) = 0 ∧
    Arena.get (Arena.new 1) 0 = PanicOr.panicked ∧
    Arena.get arena1 0 = PanicOr.ok (some ⟨1000, 4096⟩) := by
  refine ⟨rfl, rfl, rfl⟩

/-- C3 counterexample: dequeue performs no bounds validation. On a two-buffer
stream whose driver reports completed index 5, dequeue succeeds and returns
index 5, which is not strictly less than len() = 2. -/
theorem dequeue_out_of_range_cex :
    StreamInt.dequeue badIndexDriver stream2 = Except.ok (5, ⟨100, 0, 0, 0, 0, 1⟩) ∧
    Arena.len stream2.arena = 2 ∧ ¬ (5 < 2) := by
  refine ⟨rfl, rfl, by decide⟩

/-- C3 amended: a successful dequeue returns exactly the index the driver
reported, with no validation against arena bounds; the returned index is below
len() only when the driver-reported one is. -/
theorem dequeue_returns_driver_index_verbatim (d : Driver) (st : StreamState)
    (resp : DqbufResponse) (h : d.dqbuf st.bufType = Except.ok resp) :
    StreamInt.dequeue d st =
      Except.ok (resp.index,
        ⟨resp.bytesused, resp.flags, resp.field, resp.tsSec, resp.tsUsec, resp.sequence⟩) := by
  unfold StreamInt.dequeue
  rw [h]

/-- Witness for C3's amended theorem at okDriver and the two-buffer stream. -/
theorem dequeue_returns_driver_index_verbatim_witness :
    StreamInt.dequeue okDriver stream2 = Except.ok (0, ⟨100, 0, 0, 0, 0, 1⟩) :=
  dequeue_returns_driver_index_verbatim okDriver stream2 ⟨0, 100, 0, 0, 0, 0, 1⟩ rfl

/-- C4: the claim says a dequeue of buffer i with fresh metadata m overwrites
metadata slot i, so get_meta(i) returns m instead of the default. In the
source `dequeue` takes `&self` and `buf_meta` has no interior mutability, so
nothing ever writes the slots after construction: on a freshly constructed
one-buffer stream whose driver completes buffer 0 with sequence 7, dequeue
returns that fresh metadata, yet get_meta(0) is still the default value, which
differs from it. -/
theorem getMeta_stays_default_after_dequeue :
    StreamInt.withBuffers okDriver 1 1 = Except.ok stream1 ∧
    StreamInt.dequeue seq7Driver stream1 = Except.ok (0, metaSeq7) ∧
    StreamInt.getMeta stream1 0 = some Metadata.zero ∧
    metaSeq7 ≠ Metadata.zero := by
  refine ⟨rfl, rfl, rfl, by decide⟩

/-- A driver whose munmap and streamoff fail with ENODEV (code 19). -/
def enodevDriver : Driver :=
  { okDriver with munmap := fun _ _ => Except.error e19,
                  streamoff := fun _ => Except.error e19 }

/-- A driver whose munmap fails with code 5. -/
def eioMunmapDriver : Driver :=
  { okDriver with munmap := fun _ _ => Except.error eio }

/-- A driver whose streamoff fails with code 5. -/
def eioStopDriver : Driver :=
  { okDriver with streamoff := fun _ => Except.error eio }

/-- A driver whose reqbufs fails with ENODEV (code 19). -/
def enodevFreeDriver : Driver :=
  { okDriver with reqbufs := fun _ _ => Except.error e19 }

/-- C5: both Drop impls swallow exactly a raw_os_error-19 failure and panic on
any other failure, while the explicit stop and release calls propagate every
error, code 19 included: (1) an arena teardown whose release fails with code
19 completes as success; (2) with any other code it panics with that error;
(3) a stream teardown whose stop fails with code 19 continues into the
arena's own teardown; (4) with any other code it panics with that error;
(5) explicit stop returns the streamoff error verbatim; (6) explicit release
returns the free-buffers error verbatim. -/
theorem teardown_error_policy (d : Driver) (ast : ArenaState) (sst : StreamState)
    (e : IoError) :
    (ast.bufs ≠ [] → (Arena.release d ast).1 = Except.error e →
      e.rawOsError = some 19 → (Arena.dropArena d ast).1 = TeardownOutcome.ok)
  ∧ (ast.bufs ≠ [] → (Arena.release d ast).1 = Except.error e →
      e.rawOsError ≠ some 19 → (Arena.dropArena d ast).1 = TeardownOutcome.panicked e)
  ∧ ((StreamInt.stop d sst).1 = Except.error e → e.rawOsError = some 19 →
      (StreamInt.dropStream d sst).1 = (Arena.dropArena d sst.arena).1)
  ∧ ((StreamInt.stop d sst).1 = Except.error e → e.rawOsError ≠ some 19 →
      (StreamInt.dropStream d sst).1 = TeardownOutcome.panicked e)
  ∧ (d.streamoff sst.bufType = Except.error e → (StreamInt.stop d sst).1 = Except.error e)
  ∧ ((munmapAll d ast.bufs).1 = Except.ok () → d.reqbufs ast.bufType 0 = Except.error e →
      (Arena.release d ast).1 = Except.error e) := by
  refine ⟨?_, ?_, ?_, ?_, ?_, ?_⟩
  · intro hne hrel h19
    unfold Arena.dropArena
    rw [if_neg (by simpa using hne)]
    rcases hx : Arena.release d ast with ⟨r, st2, tr⟩
    rw [hx] at hrel
    cases r with
    | error e2 =>
      cases hrel
      simp [h19]
    | ok u => simp at hrel
  · intro hne hrel h19
    unfold Arena.dropArena
    rw [if_neg (by simpa using hne)]
    rcases hx : Arena.release d ast with ⟨r, st2, tr⟩
    rw [hx] at hrel
    cases r with
    | error e2 =>
      cases hrel
      simp [h19]
    | ok u => simp at hrel
  · intro hstop h19
    unfold StreamInt.dropStream
    simp only [StreamInt.stop] at hstop ⊢
    rw [hstop]
    simp [h19]
  · intro hstop h19
    unfold StreamInt.dropStream
    simp only [StreamInt.stop] at hstop ⊢
    rw [hstop]
    simp [h19]
  · intro hoff
    simpa [StreamInt.stop] using hoff
  · intro hmu hrb
    unfold Arena.release
    rcases hx : munmapAll d ast.bufs with ⟨r, tr⟩
    rw [hx] at hmu
    cases r with
    | error e2 => simp at hmu
    | ok u =>
      rw [hrb]

/-- Witness for the C5 policy theorem at concrete drivers, arenas and errors:
each of the six parts is instantiated and its hypotheses discharged by
evaluation. -/
theorem teardown_error_policy_witness :
    (Arena.dropArena enodevDriver arena1).1 = TeardownOutcome.ok
  ∧ (Arena.dropArena eioMunmapDriver arena1).1 = TeardownOutcome.panicked eio
  ∧ (StreamInt.dropStream enodevDriver stream1).1 =
      (Arena.dropArena enodevDriver stream1.arena).1
  ∧ (StreamInt.dropStream eioStopDriver stream1).1 = TeardownOutcome.panicked eio
  ∧ (StreamInt.stop enodevDriver stream1).1 = Except.error e19
  ∧ (Arena.release enodevFreeDriver arena1).1 = Except.error e19 := by
  refine ⟨?_, ?_, ?_, ?_, ?_, ?_⟩
  · exact (teardown_error_policy enodevDriver arena1 stream1 e19).1
      (by decide) rfl rfl
  · exact (teardown_error_policy eioMunmapDriver arena1 stream1 eio).2.1
      (by decide) rfl (by decide)
  · exact (teardown_error_policy enodevDriver arena1 stream1 e19).2.2.1 rfl rfl
  · exact (teardown_error_policy eioStopDriver arena1 stream1 eio).2.2.2.1 rfl (by decide)
  · exact (teardown_error_policy enodevDriver arena1 stream1 e19).2.2.2.2.1 rfl
  · exact (teardown_error_policy enodevFreeDriver arena1 stream1 e19).2.2.2.2.2 rfl rfl

/-- C6: during automatic teardown of a stream, every munmap call in the issued
trace is preceded by the stream-off call: stop is issued before any buffer is
unmapped. -/
theorem stop_before_unmap (d : Driver) (st : StreamState) (j a l : Nat)
    (h : ((StreamInt.dropStream d st).2)[j]? = some (Syscall.munmap a l)) :
    ∃ i, i < j ∧
      ((StreamInt.dropStream d st).2)[i]? = some (Syscall.streamoff st.bufType) := by
  have htr : (StreamInt.dropStream d st).2
      = Syscall.streamoff st.bufType :: (Arena.dropArena d st.arena).2 := rfl
  refine ⟨0, ?_, ?_⟩
  · rcases Nat.eq_zero_or_pos j with hj | hj
    · subst hj
      rw [htr, List.getElem?_cons_zero] at h
      exact Syscall.noConfusion (Option.some.inj h)
    · exact hj
  · rw [htr]
    exact List.getElem?_cons_zero

/-- Witness for C6: with okDriver and a one-buffer stream, position 1 of the
teardown trace is a munmap, and the stream-off call indeed sits before it. -/
theorem stop_before_unmap_witness :
    ((StreamInt.dropStream okDriver stream1).2)[1]? = some (Syscall.munmap 1000 4096)
  ∧ ∃ i, i < 1 ∧
      ((StreamInt.dropStream okDriver stream1).2)[i]? = some (Syscall.streamoff 1) :=
  ⟨rfl, stop_before_unmap okDriver stream1 1 1000 4096 rfl⟩

/-- When the queue loop of start succeeds, its trace is exactly one qbuf call
per index, in list order. -/
theorem queueAll_ok_trace (d : Driver) (bt : Nat) (l : List Nat)
    (h : (queueAll d bt l).1 = Except.ok ()) :
    (queueAll d bt l).2 = l.map (Syscall.qbuf bt) := by
  induction l with
  | nil => rfl
  | cons i rest ih =>
    unfold queueAll at h ⊢
    cases hq : d.qbuf bt i with
    | error e =>
      rw [hq] at h
      exact Except.noConfusion h
    | ok u =>
      rw [hq] at h
      show Syscall.qbuf bt i :: (queueAll d bt rest).2 = List.map (Syscall.qbuf bt) (i :: rest)
      rw [List.map_cons]
      exact congrArg _ (ih h)

/-- C7: a successful start issues stream-on first and then one qbuf per index
0, 1, ..., len-1 in ascending order, each exactly once: its trace is exactly
stream-on followed by the qbuf calls for List.range len. -/
theorem start_streamon_then_queues (d : Driver) (st : StreamState)
    (h : (StreamInt.start d st).1 = Except.ok ()) :
    (StreamInt.start d st).2 =
      Syscall.streamon st.bufType ::
        (List.range (Arena.len st.arena)).map (Syscall.qbuf st.bufType) := by
  unfold StreamInt.start at h ⊢
  cases hs : d.streamon st.bufType with
  | error e =>
    rw [hs] at h
    exact Except.noConfusion h
  | ok u =>
    rw [hs] at h
    show Syscall.streamon st.bufType ::
        (queueAll d st.bufType (List.range (Arena.len st.arena))).2 = _
    exact congrArg _ (queueAll_ok_trace d st.bufType _ h)

/-- Witness for C7 at okDriver and the two-buffer stream. -/
theorem start_streamon_then_queues_witness :
    (StreamInt.start okDriver stream2).1 = Except.ok ()
  ∧ (StreamInt.start okDriver stream2).2 =
      Syscall.streamon 1 :: (List.range 2).map (Syscall.qbuf 1) :=
  ⟨rfl, start_streamon_then_queues okDriver stream2 rfl⟩

/-- A driver that grants zero buffers on reqbufs. -/
def zeroGrantDriver : Driver :=
  { okDriver with reqbufs := fun _ _ => Except.ok 0 }

/-- A driver whose reqbufs fails with code 5. -/
def eioFreeDriver : Driver :=
  { okDriver with reqbufs := fun _ _ => Except.error eio }

/-- When the allocation loop succeeds, it appends exactly one mapped region
per index to the buffer list. -/
theorem allocLoop_ok_length (d : Driver) (bt : Nat) (bufs : List MappedRegion)
    (l : List Nat) (h : (allocLoop d bt bufs l).1 = Except.ok ()) :
    ((allocLoop d bt bufs l).2).length = bufs.length + l.length := by
  induction l generalizing bufs with
  | nil => simp [allocLoop]
  | cons i rest ih =>
    unfold allocLoop at h ⊢
    cases hs : allocStep d bt i with
    | error e =>
      rw [hs] at h
      exact Except.noConfusion h
    | ok b =>
      rw [hs] at h
      have hlen := ih (bufs ++ [b]) h
      show ((allocLoop d bt (bufs ++ [b]) rest).2).length = bufs.length + (i :: rest).length
      simp [List.length_append] at hlen ⊢
      omega

/-- C8 counterexample: allocate does not enforce a positive granted count. On
a driver that grants 0 buffers, allocate(4) succeeds returning 0, len() is 0,
and the claimed actual_count strictly positive fails. -/
theorem allocate_zero_grant_cex :
    (Arena.allocate zeroGrantDriver (Arena.new 1) 4).1 = Except.ok 0 ∧
    Arena.len (Arena.allocate zeroGrantDriver (Arena.new 1) 4).2 = 0 ∧
    ¬ (0 > 0) :=
  ⟨rfl, rfl, by decide⟩

/-- C8 amended: for a fresh arena, a successful allocate(count) returning n
leaves len() equal to n (one mapped region per granted index); positivity of
n is not guaranteed, since the code returns whatever count the driver
grants. -/
theorem allocate_len_eq_granted (d : Driver) (bt count n : Nat)
    (h : (Arena.allocate d (Arena.new bt) count).1 = Except.ok n) :
    Arena.len (Arena.allocate d (Arena.new bt) count).2 = n := by
  unfold Arena.allocate at h ⊢
  cases hr : d.reqbufs (Arena.new bt).bufType count with
  | error e =>
    rw [hr] at h
    exact Except.noConfusion h
  | ok granted =>
    rw [hr] at h
    replace h : (allocFinish d (Arena.new bt) granted).1 = Except.ok n := h
    show Arena.len (allocFinish d (Arena.new bt) granted).2 = n
    unfold allocFinish at h ⊢
    cases ha : (allocLoop d (Arena.new bt).bufType (Arena.new bt).bufs (List.range granted)).1 with
    | error e =>
      rw [ha] at h
      exact Except.noConfusion h
    | ok u =>
      rw [ha] at h
      have hn := Except.ok.inj h
      subst hn
      show ((allocLoop d (Arena.new bt).bufType (Arena.new bt).bufs (List.range granted)).2).length
        = granted
      rw [allocLoop_ok_length d (Arena.new bt).bufType (Arena.new bt).bufs
        (List.range granted) (by rw [ha])]
      simp [Arena.new]

/-- Witness for C8's amended theorem: okDriver grants the desired 3 buffers
and len() is 3 afterwards. -/
theorem allocate_len_eq_granted_witness :
    (Arena.allocate okDriver (Arena.new 1) 3).1 = Except.ok 3 ∧
    Arena.len (Arena.allocate okDriver (Arena.new 1) 3).2 = 3 :=
  ⟨rfl, allocate_len_eq_granted okDriver 1 3 3 rfl⟩

/-- C9 counterexample: a second release on an arena with no mapped buffers is
not a no-op. After a successful release of a one-buffer arena, releasing
again still issues the free-buffers request: it fails when that request fails
(device since unplugged), and even under a succeeding driver its syscall
trace is nonempty. -/
theorem release_idempotent_cex :
    (Arena.release okDriver arena1).1 = Except.ok () ∧
    (Arena.release eioFreeDriver (Arena.release okDriver arena1).2.1).1 =
      Except.error eio ∧
    (Arena.release okDriver (Arena.release okDriver arena1).2.1).2.2 ≠ [] :=
  ⟨rfl, rfl, by decide⟩

/-- C9 amended: a successful release leaves len() = 0; on an arena with no
mapped buffers, release issues no unmap call but always exactly the one
free-buffers request, and succeeds precisely when that request succeeds. -/
theorem release_len_zero_and_empty_trace (d : Driver) (st : ArenaState) :
    ((Arena.release d st).1 = Except.ok () → Arena.len (Arena.release d st).2.1 = 0)
  ∧ (st.bufs = [] → (Arena.release d st).2.2 = [Syscall.reqbufs st.bufType 0])
  ∧ (st.bufs = [] → ∀ k, d.reqbufs st.bufType 0 = Except.ok k →
      (Arena.release d st).1 = Except.ok ())
  ∧ (st.bufs = [] → ∀ e, d.reqbufs st.bufType 0 = Except.error e →
      (Arena.release d st).1 = Except.error e) := by
  refine ⟨?_, ?_, ?_, ?_⟩
  · intro h
    unfold Arena.release at h ⊢
    rcases hx : munmapAll d st.bufs with ⟨r, tr⟩
    rw [hx] at h
    cases r with
    | error e => exact Except.noConfusion h
    | ok u =>
      cases hr : d.reqbufs st.bufType 0 with
      | error e =>
        rw [hr] at h
        exact Except.noConfusion h
      | ok k => rfl
  · intro hb
    unfold Arena.release
    rw [hb]
    cases hr : d.reqbufs st.bufType 0 with
    | error e => rfl
    | ok k => rfl
  · intro hb k hr
    unfold Arena.release
    rw [hb, hr]
    rfl
  · intro hb e hr
    unfold Arena.release
    rw [hb, hr]
    rfl

/-- Witness for C9's amended theorem: the post-release one-buffer arena has
len 0; an empty arena's release trace is exactly the free request, which
decides success. -/
theorem release_len_zero_witness :
    Arena.len (Arena.release okDriver arena1).2.1 = 0
  ∧ (Arena.release okDriver (Arena.new 1)).2.2 = [Syscall.reqbufs 1 0]
  ∧ (Arena.release okDriver (Arena.new 1)).1 = Except.ok ()
  ∧ (Arena.release eioFreeDriver (Arena.new 1)).1 = Except.error eio := by
  refine ⟨?_, ?_, ?_, ?_⟩
  · exact (release_len_zero_and_empty_trace okDriver arena1).1 rfl
  · exact (release_len_zero_and_empty_trace okDriver (Arena.new 1)).2.1 rfl
  · exact (release_len_zero_and_empty_trace okDriver (Arena.new 1)).2.2.1 rfl 0 rfl
  · exact (release_len_zero_and_empty_trace eioFreeDriver (Arena.new 1)).2.2.2 rfl eio rfl

/-- When the unmap loop succeeds, its trace is exactly one munmap call per
stored region, in list order. -/
theorem munmapAll_ok_trace (d : Driver) (l : List MappedRegion)
    (h : (munmapAll d l).1 = Except.ok ()) :
    (munmapAll d l).2 = l.map (fun b => Syscall.munmap b.addr b.length) := by
  induction l with
  | nil => rfl
  | cons b rest ih =>
    unfold munmapAll at h ⊢
    cases hm : d.munmap b.addr b.length with
    | error e =>
      rw [hm] at h
      exact Except.noConfusion h
    | ok u =>
      rw [hm] at h
      show Syscall.munmap b.addr b.length :: (munmapAll d rest).2 = _
      rw [List.map_cons]
      exact congrArg _ (ih h)

/-- C10: when release fails, the arena state is exactly as before the call
(bufs is cleared only after full success), so len() and every stored handle
are unchanged; and a retried release under a driver whose unmaps succeed
re-attempts the munmap of every stored region (its trace is one munmap per
original region followed by the free request). -/
theorem release_error_preserves_bufs (d d2 : Driver) (st : ArenaState) (e : IoError)
    (h : (Arena.release d st).1 = Except.error e) :
    (Arena.release d st).2.1 = st
  ∧ ((munmapAll d2 st.bufs).1 = Except.ok () →
      (Arena.release d2 (Arena.release d st).2.1).2.2 =
        st.bufs.map (fun b => Syscall.munmap b.addr b.length)
          ++ [Syscall.reqbufs st.bufType 0]) := by
  have hpres : (Arena.release d st).2.1 = st := by
    unfold Arena.release at h ⊢
    rcases hx : munmapAll d st.bufs with ⟨r, tr⟩
    rw [hx] at h
    cases r with
    | error e2 => rfl
    | ok u =>
      cases hr : d.reqbufs st.bufType 0 with
      | error e2 => rfl
      | ok k =>
        rw [hr] at h
        exact Except.noConfusion h
  refine ⟨hpres, fun hmu => ?_⟩
  rw [hpres]
  unfold Arena.release
  rcases hx : munmapAll d2 st.bufs with ⟨r, tr⟩
  rw [hx] at hmu
  cases r with
  | error e2 => exact Except.noConfusion hmu
  | ok u =>
    have htr : tr = st.bufs.map (fun b => Syscall.munmap b.addr b.length) := by
      have hq := munmapAll_ok_trace d2 st.bufs (by rw [hx])
      rw [hx] at hq
      exact hq
    cases hr : d2.reqbufs st.bufType 0 with
    | error e2 => rw [htr]
    | ok k => rw [htr]

/-- Witness for C10: a driver whose munmap fails leaves the one-buffer arena
untouched, and the retry under okDriver unmaps that buffer and frees. -/
theorem release_error_preserves_bufs_witness :
    (Arena.release eioMunmapDriver arena1).1 = Except.error eio
  ∧ (Arena.release eioMunmapDriver arena1).2.1 = arena1
  ∧ (Arena.release okDriver (Arena.release eioMunmapDriver arena1).2.1).2.2 =
      [Syscall.munmap 1000 4096, Syscall.reqbufs 1 0] := by
  refine ⟨rfl, ?_, ?_⟩
  · exact (release_error_preserves_bufs eioMunmapDriver okDriver arena1 eio rfl).1
  · exact (release_error_preserves_bufs eioMunmapDriver okDriver arena1 eio rfl).2 rfl

end V4l
